import Mathlib

/-!
# Verification of the spreadsheet-backed todo store

Shallow embedding of the core of `sheets_client.py` (and the create-form
validation path of `app.py`) of the todo web application.

Modelling conventions:
* A worksheet is a list of rows; each row is a list of cell strings
  (`Sheet := List Row`, `Row := List String`).  Row 1 of the worksheet is
  the header row, i.e. element 0 of the list.
* `worksheet.row_values(1)` returns row 1 with trailing empty cells
  trimmed (Sheets API behaviour); `get_all_values()` returns the stored
  grid; `append_row` appends at the end; range updates overwrite exactly
  the addressed cells; `clear()` empties the sheet; `update_cells` writes
  individual cells (growing a row with empty cells when needed).
* `datetime` instants are abstracted as integers (seconds).  ISO-8601
  parsing (`datetime.fromisoformat`) becomes integer parsing: the
  abstraction preserves ordering and difference arithmetic, which is all
  the source uses.  Attaching the configured timezone to a naive value is
  the identity in this single-zone abstraction.
* `uuid.uuid4()` and `_now_iso()` are nondeterministic inputs of the
  Python code; they are passed as explicit parameters (`newId`,
  `nowStr`).
* Python dicts keyed by header names are modelled as functions
  `String → Option String` (`none` = key absent, mirroring `dict.get`).
-/

abbrev Row := List String

abbrev Sheet := List Row

abbrev TodoDict := String → Option String

/-- `HEADERS` from sheets_client.py: the canonical header row. -/
def HEADERS : List String :=
  ["id", "title", "description", "priority", "status",
   "due_at", "created_at", "updated_at", "done_at", "last_reminded_at"]

/-- `_OLD_TO_NEW` from sheets_client.py: legacy column renames. -/
def OLD_TO_NEW : List (String × String) :=
  [("body", "description"), ("due_date", "due_at")]

/-- `VALID_PRIORITIES` from sheets_client.py. -/
def VALID_PRIORITIES : List String := ["High", "Medium", "Low"]

/-- `VALID_STATUSES` from sheets_client.py. -/
def VALID_STATUSES : List String := ["open", "done"]

/-- Remove trailing empty cells from a row, as the Sheets API does when
returning `row_values`. -/
def trimTrailingEmpty (r : Row) : Row :=
  (r.reverse.dropWhile (fun x => x == "")).reverse

/-- `worksheet.row_values(1)`: row 1 of the sheet, trailing empty cells
trimmed; `[]` for an empty sheet. -/
def rowValues1 (s : Sheet) : Row :=
  trimTrailingEmpty (s.headD [])

/-- Index map built with `{h: i for i, h in enumerate(old_headers)}` in
`_ensure_headers`: membership / lookup keyed by cell value, later
duplicates overwriting earlier ones (hence the last matching index). -/
def oldIdx (hdr : Row) (name : String) : Option Nat :=
  (List.range hdr.length).foldl
    (fun acc i => if hdr.getD i "" == name then some i else acc) none

/-- `get_header_map` from sheets_client.py:
`{h: i for i, h in enumerate(worksheet.row_values(1)) if h}` — like
`oldIdx` but empty header names are skipped.  The argument is the
(already trimmed) header row. -/
def headerIdx (hdr : Row) (name : String) : Option Nat :=
  if name = "" then none else oldIdx hdr name

/-- The `needs_migration` condition inside `_ensure_headers`:
`current and len(current) >= 1 and current[0] == "id" and
 any(old in current for old in _OLD_TO_NEW)`. -/
def needsMigration (current : Row) : Bool :=
  !current.isEmpty && current.headD "" == "id"
    && OLD_TO_NEW.any (fun p => current.contains p.1)

/-- `next((ok for ok, nk in _OLD_TO_NEW.items() if nk == h), None)`:
the legacy name renamed to canonical header `h`, if any. -/
def oldNameFor (h : String) : Option String :=
  (OLD_TO_NEW.find? (fun p => p.2 == h)).map (fun p => p.1)

/-- Fallback branches of the migration cell computation in
`_ensure_headers`: same-named old column, else the hardcoded defaults
for `priority` / `status`, else the empty string. -/
def migrateFallback (oldHeaders row : Row) (h : String) : String :=
  match oldIdx oldHeaders h with
  | some i => row.getD i ""
  | none => if h = "priority" then "Medium" else if h = "status" then "open" else ""

/-- One cell of a migrated row in `_ensure_headers`: renamed old column
first, then the fallbacks of `migrateFallback`. -/
def migrateRowCell (oldHeaders row : Row) (h : String) : String :=
  match oldNameFor h with
  | some oldName =>
    match oldIdx oldHeaders oldName with
    | some i => row.getD i ""
    | none => migrateFallback oldHeaders row h
  | none => migrateFallback oldHeaders row h

/-- One migrated data row: `for h in HEADERS: new_row.append(...)`. -/
def migrateRow (oldHeaders row : Row) : Row :=
  HEADERS.map (migrateRowCell oldHeaders row)

/-- The migration branch of `_ensure_headers`: clear the sheet, then one
bulk write of the canonical header row followed by all migrated data
rows. -/
def migrateSheet (s : Sheet) : Sheet :=
  HEADERS :: (s.tail.map (migrateRow (s.headD [])))

/-- The non-migration write at the end of `_ensure_headers`:
`worksheet.update("A1:J1", [HEADERS])` — overwrite exactly the first
`HEADERS.length` cells of row 1, leaving everything else in place. -/
def writeCanonicalHeader (s : Sheet) : Sheet :=
  match s with
  | [] => [HEADERS]
  | r :: rest => (HEADERS ++ r.drop HEADERS.length) :: rest

/-- `_ensure_headers` from sheets_client.py. -/
def ensureHeaders (s : Sheet) : Sheet :=
  if rowValues1 s = HEADERS then s
  else if needsMigration (rowValues1 s) then migrateSheet s
  else writeCanonicalHeader s

/-- `_row_to_dict(row, hmap)`: record keyed by the (nonempty) header
names, `row[i] if i < len(row) else ""` as values.  `hdr` is the trimmed
header row from which `hmap` was built. -/
def rowToDict (row hdr : Row) : TodoDict :=
  fun h => (headerIdx hdr h).map (fun i => row.getD i "")

/-- A Python dict literal with (distinct) string keys. -/
def mkDict (l : List (String × String)) : TodoDict :=
  fun h => (l.find? (fun p => p.1 == h)).map (fun p => p.2)

/-- `{**d, k: v}` for a single overriding key. -/
def dictInsert (d : TodoDict) (k v : String) : TodoDict :=
  fun h => if h = k then some v else d h

/-- `_dict_to_row(data)`: `[str(data.get(h, "")) for h in HEADERS]`
(all stored values are strings already, so `str` is the identity). -/
def dictToRow (d : TodoDict) : Row :=
  HEADERS.map (fun h => (d h).getD "")

/-- The row filter in `fetch_all_todos`:
`if row and len(row) > id_col and row[id_col]`. -/
def fetchKeep (idCol : Nat) (row : Row) : Bool :=
  !row.isEmpty && decide (idCol < row.length) && !(row.getD idCol "" == "")

/-- `fetch_all_todos` from sheets_client.py.  The first component is the
sheet after the `_ensure_headers` side effect, the second the returned
record list. -/
def fetch_all_todos (s : Sheet) : Sheet × List TodoDict :=
  let s1 := ensureHeaders s
  let hdr := rowValues1 s1
  let idCol := (headerIdx hdr "id").getD 0
  (s1, (s1.tail.filter (fetchKeep idCol)).map (fun row => rowToDict row hdr))

/-- `fetch_todo_by_id` from sheets_client.py: first data row whose id
cell matches exactly (`len(row) > id_col and row[id_col] == todo_id`). -/
def fetch_todo_by_id (s : Sheet) (todo_id : String) : Sheet × Option TodoDict :=
  let s1 := ensureHeaders s
  let hdr := rowValues1 s1
  let idCol := (headerIdx hdr "id").getD 0
  (s1, (s1.tail.find?
          (fun row => decide (idCol < row.length) && (row.getD idCol "" == todo_id))).map
        (fun row => rowToDict row hdr))

/-- The `data` dict literal built by `create_todo`. -/
def createData (newId nowStr title description priority due_at : String) : TodoDict :=
  mkDict
    [("id", newId), ("title", title), ("description", description),
     ("priority", if VALID_PRIORITIES.contains priority then priority else "Medium"),
     ("status", "open"), ("due_at", due_at),
     ("created_at", nowStr), ("updated_at", nowStr),
     ("done_at", ""), ("last_reminded_at", "")]

/-- `create_todo` from sheets_client.py: ensure headers, then
`sheet.append_row(_dict_to_row(data))`.  `newId` models `uuid.uuid4()`
and `nowStr` models `_now_iso()`. -/
def create_todo (s : Sheet) (newId nowStr title description priority due_at : String) :
    Sheet :=
  ensureHeaders s ++ [dictToRow (createData newId nowStr title description priority due_at)]

/-- Overwrite the first `newCells.length` cells of a row in place
(`sheet.update("A{n}:J{n}", [cells])`). -/
def overwriteRowCells (row newCells : Row) : Row :=
  newCells ++ row.drop newCells.length

/-- Write `newCells` into the 1-based row number `n` of the sheet. -/
def setRow (s : Sheet) (n : Nat) (newCells : Row) : Sheet :=
  s.set (n - 1) (overwriteRowCells (s.getD (n - 1) []) newCells)

/-- The row-matching predicate of the `for row_num, row in
enumerate(rows[1:], start=2)` loops:
`len(row) > id_col and row[id_col] == todo_id`. -/
def idMatch (idCol : Nat) (todo_id : String) (row : Row) : Bool :=
  decide (idCol < row.length) && (row.getD idCol "" == todo_id)

/-- The `data` dict literal built by `update_todo` from the old row. -/
def updateData (old : TodoDict) (nowStr todo_id title description priority due_at : String) :
    TodoDict :=
  mkDict
    [("id", todo_id), ("title", title), ("description", description),
     ("priority", if VALID_PRIORITIES.contains priority then priority else "Medium"),
     ("status", (old "status").getD "open"), ("due_at", due_at),
     ("created_at", (old "created_at").getD ""), ("updated_at", nowStr),
     ("done_at", (old "done_at").getD ""),
     ("last_reminded_at", (old "last_reminded_at").getD "")]

/-- `update_todo` from sheets_client.py: overwrite the first matching
row in place; no-op (apart from `_ensure_headers`) when no row matches. -/
def update_todo (s : Sheet) (nowStr todo_id title description priority due_at : String) :
    Sheet :=
  let s1 := ensureHeaders s
  let hdr := rowValues1 s1
  let idCol := (headerIdx hdr "id").getD 0
  match s1.tail.findIdx? (idMatch idCol todo_id) with
  | none => s1
  | some j =>
    let old := rowToDict (s1.tail.getD j []) hdr
    setRow s1 (j + 2)
      (dictToRow (updateData old nowStr todo_id title description priority due_at))

/-- `toggle_status` from sheets_client.py: flip `open`↔`done` on the
first matching row, returning the new status (`none` when not found). -/
def toggle_status (s : Sheet) (nowStr todo_id : String) : Sheet × Option String :=
  let s1 := ensureHeaders s
  let hdr := rowValues1 s1
  let idCol := (headerIdx hdr "id").getD 0
  match s1.tail.findIdx? (idMatch idCol todo_id) with
  | none => (s1, none)
  | some j =>
    let old := rowToDict (s1.tail.getD j []) hdr
    let newStatus := if old "status" ≠ some "done" then "done" else "open"
    let data :=
      dictInsert (dictInsert (dictInsert old "status" newStatus)
        "done_at" (if newStatus = "done" then nowStr else "")) "updated_at" nowStr
    (setRow s1 (j + 2) (dictToRow data), some newStatus)

/-- Python `str.strip()`: remove leading and trailing whitespace
(structurally recursive, so concrete instances evaluate in the
kernel). -/
def pyStrip (s : String) : String :=
  String.mk (((s.data.dropWhile (fun c => c.isWhitespace)).reverse.dropWhile
      (fun c => c.isWhitespace)).reverse)

/-- Decimal digit accumulator for `strToInt?`. -/
def parseNatAux : List Char → Nat → Option Nat
  | [], acc => some acc
  | c :: cs, acc =>
    if c.isDigit then parseNatAux cs (acc * 10 + (c.toNat - 48)) else none

/-- Parse a (possibly negative) decimal integer string; `none` on the
empty string or any non-digit character.  Structurally recursive
replacement for `String.toInt?`. -/
def strToInt? (s : String) : Option Int :=
  match s.data with
  | [] => none
  | '-' :: rest =>
    if rest.isEmpty then none else (parseNatAux rest 0).map (fun n => -(n : Int))
  | l => (parseNatAux l 0).map (fun n => (n : Int))

/-- `_parse_iso` from sheets_client.py, under the integer-instant
abstraction of datetimes: empty/blank input parses to `none`, otherwise
the stripped value is parsed (unparseable input gives `none`). -/
def parseIso (value : String) : Option Int :=
  if pyStrip value = "" then none else strToInt? (pyStrip value)

/-- The per-record filter of the `find_due_within` loop, with its three
`continue` guards: status must be `"open"`, `due_at` must parse and lie
in `[now, windowEnd]`, and a parseable `last_reminded_at` within
`hours * 3600` seconds of `now` suppresses the record. -/
def dueFilter (now windowEnd hours : Int) (t : TodoDict) : Bool :=
  if t "status" ≠ some "open" then false
  else
    match parseIso ((t "due_at").getD "") with
    | none => false
    | some due =>
      if now ≤ due ∧ due ≤ windowEnd then
        match parseIso ((t "last_reminded_at").getD "") with
        | none => true
        | some last => if now - last < hours * 3600 then false else true
      else false

/-- `find_due_within` from sheets_client.py (`now` is `datetime.now(tz)`,
`windowEnd = now + timedelta(hours=hours)`).  First component: sheet
after the `fetch_all_todos` side effect. -/
def find_due_within (s : Sheet) (now : Int) (hours : Int) : Sheet × List TodoDict :=
  let p := fetch_all_todos s
  (p.1, p.2.filter (dueFilter now (now + hours * 3600) hours))

/-- `gspread.Cell(row, col, value)` + `update_cells`: write one cell of
a row (0-based column), growing the row with empty cells if needed. -/
def setCellInRow : Row → Nat → String → Row
  | [], 0, v => [v]
  | [], c + 1, v => "" :: setCellInRow [] c v
  | _ :: xs, 0, v => v :: xs
  | x :: xs, c + 1, v => x :: setCellInRow xs c v

/-- `mark_reminded` from sheets_client.py: set the `last_reminded_at`
cell of every data row whose id cell is in `todo_ids`.  `nowStr` models
`_now_iso()`, used when `reminded_at` is empty. -/
def mark_reminded (s : Sheet) (nowStr : String) (todo_ids : List String)
    (reminded_at : String) : Sheet :=
  if todo_ids.isEmpty then s
  else
    let at_ := if reminded_at = "" then nowStr else reminded_at
    let s1 := ensureHeaders s
    let hdr := rowValues1 s1
    let idCol := (headerIdx hdr "id").getD 0
    match headerIdx hdr "last_reminded_at" with
    | none => s1
    | some remCol =>
      match s1 with
      | [] => []
      | h :: t =>
        h :: t.map (fun row =>
          if decide (idCol < row.length) && todo_ids.contains (row.getD idCol "") then
            setCellInRow row remCol at_
          else row)

/-- `_validate_form` from app.py: `not title or not title.strip()`. -/
def validate_form (title : String) : List String :=
  if title = "" ∨ pyStrip title = "" then ["タイトルは必須です。"] else []

/-- `_date_to_iso` from app.py, under the integer-instant abstraction: a
parseable date string is modelled as an integer string and the
23:59-local-time instant it denotes as that integer; empty input yields
the empty string and unparseable input is returned stripped, as in the
source. -/
def date_to_iso (dateStr : String) : String :=
  if pyStrip dateStr = "" then ""
  else
    match strToInt? (pyStrip dateStr) with
    | some d => toString d
    | none => pyStrip dateStr

/-- The `new_post` route of app.py (success path of the `try` block):
strip the form fields, validate the title, and either redisplay the form
with errors (leaving the sheet untouched) or call
`sheets_client.create_todo`.  Returns the resulting sheet and the
validation errors (empty = the todo was created). -/
def new_post (s : Sheet) (newId nowStr titleForm descriptionForm dueDateForm priorityForm :
    String) : Sheet × List String :=
  let title := pyStrip titleForm
  let description := pyStrip descriptionForm
  let due_date := pyStrip dueDateForm
  let priority := pyStrip priorityForm
  let errors := validate_form title
  if errors ≠ [] then (s, errors)
  else (create_todo s newId nowStr title description priority (date_to_iso due_date), [])

/-! ## Evaluation lemmas for the canonical header -/

theorem trimTrailingEmpty_HEADERS : trimTrailingEmpty HEADERS = HEADERS := rfl

@[simp] theorem rowValues1_cons_HEADERS (t : Sheet) : rowValues1 (HEADERS :: t) = HEADERS := rfl

theorem ensureHeaders_of_canonical {s : Sheet} (h : rowValues1 s = HEADERS) :
    ensureHeaders s = s := by
  simp [ensureHeaders, h]

@[simp] theorem headerIdx_HEADERS_id : headerIdx HEADERS "id" = some 0 := rfl

@[simp] theorem headerIdx_HEADERS_status : headerIdx HEADERS "status" = some 4 := rfl

@[simp] theorem headerIdx_HEADERS_last_reminded_at :
    headerIdx HEADERS "last_reminded_at" = some 9 := rfl

@[simp] theorem rowToDict_HEADERS_id (row : Row) :
    rowToDict row HEADERS "id" = some (row.getD 0 "") := rfl

@[simp] theorem rowToDict_HEADERS_title (row : Row) :
    rowToDict row HEADERS "title" = some (row.getD 1 "") := rfl

@[simp] theorem rowToDict_HEADERS_description (row : Row) :
    rowToDict row HEADERS "description" = some (row.getD 2 "") := rfl

@[simp] theorem rowToDict_HEADERS_priority (row : Row) :
    rowToDict row HEADERS "priority" = some (row.getD 3 "") := rfl

@[simp] theorem rowToDict_HEADERS_status (row : Row) :
    rowToDict row HEADERS "status" = some (row.getD 4 "") := rfl

@[simp] theorem rowToDict_HEADERS_due_at (row : Row) :
    rowToDict row HEADERS "due_at" = some (row.getD 5 "") := rfl

@[simp] theorem rowToDict_HEADERS_created_at (row : Row) :
    rowToDict row HEADERS "created_at" = some (row.getD 6 "") := rfl

@[simp] theorem rowToDict_HEADERS_updated_at (row : Row) :
    rowToDict row HEADERS "updated_at" = some (row.getD 7 "") := rfl

@[simp] theorem rowToDict_HEADERS_done_at (row : Row) :
    rowToDict row HEADERS "done_at" = some (row.getD 8 "") := rfl

@[simp] theorem rowToDict_HEADERS_last_reminded_at (row : Row) :
    rowToDict row HEADERS "last_reminded_at" = some (row.getD 9 "") := rfl

theorem dictToRow_createData (newId nowStr title description priority due_at : String) :
    dictToRow (createData newId nowStr title description priority due_at) =
      [newId, title, description,
       if VALID_PRIORITIES.contains priority then priority else "Medium",
       "open", due_at, nowStr, nowStr, "", ""] := rfl

theorem dictToRow_updateData (old : TodoDict)
    (nowStr todo_id title description priority due_at : String) :
    dictToRow (updateData old nowStr todo_id title description priority due_at) =
      [todo_id, title, description,
       if VALID_PRIORITIES.contains priority then priority else "Medium",
       (old "status").getD "open", due_at, (old "created_at").getD "", nowStr,
       (old "done_at").getD "", (old "last_reminded_at").getD ""] := rfl

theorem dictToRow_toggleData (row : Row) (newStatus doneAt nowStr : String) :
    dictToRow (dictInsert (dictInsert (dictInsert (rowToDict row HEADERS) "status" newStatus)
        "done_at" doneAt) "updated_at" nowStr) =
      [row.getD 0 "", row.getD 1 "", row.getD 2 "", row.getD 3 "", newStatus,
       row.getD 5 "", row.getD 6 "", nowStr, doneAt, row.getD 9 ""] := rfl

/-! ## Structural lemmas about the sheet model -/

theorem dropWhile_append_of_allEmpty {c d : Row}
    (h : ∀ x ∈ c, x = "") :
    List.dropWhile (fun x => x == "") (c ++ d) = List.dropWhile (fun x => x == "") d := by
  induction c with
  | nil => rfl
  | cons x xs ih =>
    have hx : x = "" := h x (List.mem_cons_self x xs)
    simp only [List.cons_append, List.dropWhile_cons, hx]
    simpa using ih (fun y hy => h y (List.mem_cons_of_mem x hy))

theorem trimTrailingEmpty_append_allEmpty {a b : Row}
    (h : ∀ x ∈ b, x = "") :
    trimTrailingEmpty (a ++ b) = trimTrailingEmpty a := by
  unfold trimTrailingEmpty
  rw [List.reverse_append, dropWhile_append_of_allEmpty (fun x hx => h x (by simpa using hx))]

/-- A row decomposes as its trimmed prefix followed by empty cells. -/
theorem trim_decomposition (r : Row) :
    r = trimTrailingEmpty r ++ (r.reverse.takeWhile (fun x => x == "")).reverse := by
  conv_lhs => rw [← List.reverse_reverse r,
    ← List.takeWhile_append_dropWhile (fun x => x == "") r.reverse]
  rw [List.reverse_append]
  rfl

theorem mem_trim_residue_empty {r : Row} {x : String}
    (hx : x ∈ (r.reverse.takeWhile (fun x => x == "")).reverse) : x = "" := by
  rw [List.mem_reverse] at hx
  have := List.mem_takeWhile_imp hx
  simpa using this

/-- Every cell at or beyond the trimmed length of a row is empty. -/
theorem mem_drop_trim_empty {r : Row} {n : Nat}
    (hn : (trimTrailingEmpty r).length ≤ n) : ∀ x ∈ r.drop n, x = "" := by
  intro x hx
  have hdecomp := trim_decomposition r
  rw [hdecomp, show n = (trimTrailingEmpty r).length + (n - (trimTrailingEmpty r).length) by
    omega, List.drop_append] at hx
  exact mem_trim_residue_empty (List.drop_subset _ _ hx)

theorem setCellInRow_getD_self :
    ∀ (r : Row) (c : Nat) (v : String), (setCellInRow r c v).getD c "" = v
  | [], 0, _ => rfl
  | [], c + 1, v => by
    simpa [setCellInRow] using setCellInRow_getD_self [] c v
  | _ :: _, 0, _ => rfl
  | _ :: xs, c + 1, v => by
    simpa [setCellInRow] using setCellInRow_getD_self xs c v

theorem setCellInRow_getD_ne :
    ∀ (r : Row) (c c' : Nat) (v : String), c' ≠ c →
      (setCellInRow r c v).getD c' "" = r.getD c' ""
  | [], 0, c', _, h => by
    match c', h with
    | c' + 1, _ => simp [setCellInRow]
  | [], c + 1, c', v, h => by
    match c' with
    | 0 => simp [setCellInRow]
    | c' + 1 =>
      simpa [setCellInRow] using setCellInRow_getD_ne [] c c' v (by omega)
  | _ :: xs, 0, c', _, h => by
    match c', h with
    | c' + 1, _ => simp [setCellInRow]
  | x :: xs, c + 1, c', v, h => by
    match c' with
    | 0 => simp [setCellInRow]
    | c' + 1 =>
      simpa [setCellInRow] using setCellInRow_getD_ne xs c c' v (by omega)

theorem findIdx?_lt_length {α : Type} {l : List α} {p : α → Bool} {j : Nat}
    (h : l.findIdx? p = some j) : j < l.length := by
  rw [List.findIdx?_eq_some_iff_getElem] at h
  exact h.1

theorem findIdx?_getD {α : Type} [Inhabited α] {l : List α} {p : α → Bool} {j : Nat}
    (h : l.findIdx? p = some j) (d : α) : p (l.getD j d) = true := by
  rw [List.findIdx?_eq_some_iff_getElem] at h
  obtain ⟨hj, hp, -⟩ := h
  rw [List.getD_eq_getElem?_getD, List.getElem?_eq_getElem hj]
  exact hp

/-- Replacing the found element with another element satisfying the
predicate does not move the first match. -/
theorem findIdx?_set_self {α : Type} {l : List α} {p : α → Bool} {j : Nat} {v : α}
    (h : l.findIdx? p = some j) (hv : p v = true) :
    (l.set j v).findIdx? p = some j := by
  rw [List.findIdx?_eq_some_iff_getElem] at h ⊢
  obtain ⟨hj, hp, hmin⟩ := h
  refine ⟨by simpa using hj, ?_, ?_⟩
  · rw [List.getElem_set_self]
    exact hv
  · intro k hk
    rw [List.getElem_set_ne (by omega)]
    exact hmin k hk

theorem find?_append_of_none {α : Type} {l₁ l₂ : List α} {p : α → Bool}
    (h : ∀ x ∈ l₁, p x = false) : (l₁ ++ l₂).find? p = l₂.find? p := by
  rw [List.find?_append, List.find?_eq_none.mpr (fun x hx => by simp [h x hx]), Option.none_or]

/-! ## Claims -/

/-- C1: For every store state, calling the create operation with an empty
title is rejected by the form validation before any store mutation
occurs: the resulting sheet is unchanged (no row appended) and a
validation error is reported. -/
theorem C1_create_empty_title_rejected
    (s : Sheet) (newId nowStr titleForm descriptionForm dueDateForm priorityForm : String)
    (h : pyStrip titleForm = "") :
    (new_post s newId nowStr titleForm descriptionForm dueDateForm priorityForm).1 = s ∧
    (new_post s newId nowStr titleForm descriptionForm dueDateForm priorityForm).2 ≠ [] := by
  simp [new_post, validate_form, h]

theorem C1_witness :
    (pyStrip "  " = "") ∧
    ((new_post [HEADERS] "uuid-1" "0" "  " "desc" "" "Medium").1 = [HEADERS] ∧
     (new_post [HEADERS] "uuid-1" "0" "  " "desc" "" "Medium").2 ≠ []) :=
  ⟨by decide,
   C1_create_empty_title_rejected [HEADERS] "uuid-1" "0" "  " "desc" "" "Medium" (by decide)⟩

/-- The legacy header layout of the migration scenario. -/
def LEGACY_HEADERS : Row := ["id", "title", "body", "due_date", "created_at", "updated_at"]

/-- C2: Given a sheet whose header row is the legacy layout
`[id, title, body, due_date, created_at, updated_at]` with one data row,
after `_ensure_headers` runs the header row equals the canonical header
list and the data row, read under canonical headers, has `description`
equal to the old `body` cell, `due_at` equal to the old `due_date` cell,
`priority` `"Medium"`, `status` `"open"`, and `id`, `title`,
`created_at`, `updated_at` carried over from the same-named old
columns. -/
theorem C2_legacy_migration (r : Row) :
    (ensureHeaders [LEGACY_HEADERS, r]).headD [] = HEADERS ∧
    rowToDict ((ensureHeaders [LEGACY_HEADERS, r]).tail.headD []) HEADERS "description"
      = some (r.getD 2 "") ∧
    rowToDict ((ensureHeaders [LEGACY_HEADERS, r]).tail.headD []) HEADERS "due_at"
      = some (r.getD 3 "") ∧
    rowToDict ((ensureHeaders [LEGACY_HEADERS, r]).tail.headD []) HEADERS "priority"
      = some "Medium" ∧
    rowToDict ((ensureHeaders [LEGACY_HEADERS, r]).tail.headD []) HEADERS "status"
      = some "open" ∧
    rowToDict ((ensureHeaders [LEGACY_HEADERS, r]).tail.headD []) HEADERS "id"
      = some (r.getD 0 "") ∧
    rowToDict ((ensureHeaders [LEGACY_HEADERS, r]).tail.headD []) HEADERS "title"
      = some (r.getD 1 "") ∧
    rowToDict ((ensureHeaders [LEGACY_HEADERS, r]).tail.headD []) HEADERS "created_at"
      = some (r.getD 4 "") ∧
    rowToDict ((ensureHeaders [LEGACY_HEADERS, r]).tail.headD []) HEADERS "updated_at"
      = some (r.getD 5 "") :=
  ⟨rfl, rfl, rfl, rfl, rfl, rfl, rfl, rfl, rfl⟩

/-- C3 (counterexample): a sheet whose stored header row extends beyond
the canonical width refutes the claim: after one `_ensure_headers` run
row 1 is not the canonical header list, and a second run migrates (the
leftover `"body"` column now triggers the legacy detector), altering the
data row.  So running the operation twice does not equal running it
once. -/
theorem C3_counterexample :
    ¬ (rowValues1 (ensureHeaders ([["x", "t", "d", "Medium", "open", "", "", "", "", "", "body"],
          ["a", "b", "c", "d", "e", "f", "g", "h", "i", "j", "k"]] : Sheet)) = HEADERS ∧
        ensureHeaders (ensureHeaders
            ([["x", "t", "d", "Medium", "open", "", "", "", "", "", "body"],
              ["a", "b", "c", "d", "e", "f", "g", "h", "i", "j", "k"]] : Sheet))
          = ensureHeaders ([["x", "t", "d", "Medium", "open", "", "", "", "", "", "body"],
              ["a", "b", "c", "d", "e", "f", "g", "h", "i", "j", "k"]] : Sheet)) := by
  decide

/-- C3 (amended): provided row 1 of the sheet has no cells beyond the
canonical header width (its trimmed length is at most
`HEADERS.length`), running `_ensure_headers` twice in a row yields the
same state as running it once — row 1 equals the canonical header list
after the first run, the second run is a no-op — and in particular the
second run neither duplicates nor alters any data row. -/
theorem C3_ensure_idempotent_amended (s : Sheet)
    (h : (rowValues1 s).length ≤ HEADERS.length) :
    rowValues1 (ensureHeaders s) = HEADERS ∧
    ensureHeaders (ensureHeaders s) = ensureHeaders s ∧
    (ensureHeaders (ensureHeaders s)).tail = (ensureHeaders s).tail := by
  have key : rowValues1 (ensureHeaders s) = HEADERS := by
    unfold ensureHeaders
    split_ifs with h1 hm
    · exact h1
    · simp [migrateSheet]
    · cases s with
      | nil => rfl
      | cons r rest =>
        show rowValues1 ((HEADERS ++ r.drop HEADERS.length) :: rest) = HEADERS
        have hempty : ∀ x ∈ r.drop HEADERS.length, x = "" :=
          mem_drop_trim_empty (by simpa [rowValues1] using h)
        simp [rowValues1, trimTrailingEmpty_append_allEmpty hempty, trimTrailingEmpty_HEADERS]
  have hnoop := ensureHeaders_of_canonical key
  exact ⟨key, hnoop, by rw [hnoop]⟩

theorem C3_witness :
    ((rowValues1 ([["id", "title"], ["r1", "r2"]] : Sheet)).length ≤ HEADERS.length) ∧
    (rowValues1 (ensureHeaders ([["id", "title"], ["r1", "r2"]] : Sheet)) = HEADERS ∧
     ensureHeaders (ensureHeaders ([["id", "title"], ["r1", "r2"]] : Sheet))
       = ensureHeaders ([["id", "title"], ["r1", "r2"]] : Sheet) ∧
     (ensureHeaders (ensureHeaders ([["id", "title"], ["r1", "r2"]] : Sheet))).tail
       = (ensureHeaders ([["id", "title"], ["r1", "r2"]] : Sheet)).tail) :=
  ⟨by decide, C3_ensure_idempotent_amended [["id", "title"], ["r1", "r2"]] (by decide)⟩

/-! ## Reminder selector lemmas -/

@[simp] theorem ensureHeaders_cons_HEADERS (rows : List Row) :
    ensureHeaders (HEADERS :: rows) = HEADERS :: rows :=
  ensureHeaders_of_canonical (rowValues1_cons_HEADERS rows)

theorem fetch_all_cons_HEADERS (rows : List Row) :
    fetch_all_todos (HEADERS :: rows) =
      (HEADERS :: rows,
       (rows.filter (fetchKeep 0)).map (fun row => rowToDict row HEADERS)) := by
  simp [fetch_all_todos]

theorem find_due_within_cons_HEADERS (rows : List Row) (now hrs : Int) :
    find_due_within (HEADERS :: rows) now hrs =
      (HEADERS :: rows,
       ((rows.filter (fetchKeep 0)).map (fun row => rowToDict row HEADERS)).filter
         (dueFilter now (now + hrs * 3600) hrs)) := by
  simp [find_due_within, fetch_all_cons_HEADERS]

theorem mark_reminded_cons_HEADERS (rows : List Row) (nowStr at_ : String)
    (ids : List String) (hids : ids ≠ []) (hat : at_ ≠ "") :
    mark_reminded (HEADERS :: rows) nowStr ids at_ =
      HEADERS :: rows.map (fun row =>
        if decide (0 < row.length) && ids.contains (row.getD 0 "") then
          setCellInRow row 9 at_
        else row) := by
  simp [mark_reminded, hids, hat]

theorem parseIso_empty : parseIso "" = none := rfl

theorem fetchKeep_of_id {r : Row} {i : String} (hid : r.getD 0 "" = i) (hne : i ≠ "") :
    fetchKeep 0 r = true := by
  cases r with
  | nil => exact absurd hid.symm hne
  | cons x xs =>
    have hx : x = i := hid
    simp [fetchKeep, hx, hne]

theorem dueFilter_true_of {now windowEnd hrs : Int} {t : TodoDict}
    (hst : t "status" = some "open") (due : Int)
    (hdue : parseIso ((t "due_at").getD "") = some due)
    (h1 : now ≤ due) (h2 : due ≤ windowEnd)
    (hlast : parseIso ((t "last_reminded_at").getD "") = none ∨
      ∃ l, parseIso ((t "last_reminded_at").getD "") = some l ∧ ¬ (now - l < hrs * 3600)) :
    dueFilter now windowEnd hrs t = true := by
  unfold dueFilter
  rw [if_neg (by simp [hst])]
  rw [hdue]
  simp only [if_pos (And.intro h1 h2)]
  rcases hlast with h | ⟨l, hl, hrec⟩
  · rw [h]
  · rw [hl]
    simp [hrec]

theorem dueFilter_now_le_due {now w hrs d : Int} {t : TodoDict}
    (hf : dueFilter now w hrs t = true)
    (hd : parseIso ((t "due_at").getD "") = some d) : now ≤ d := by
  unfold dueFilter at hf
  split at hf
  · simp at hf
  · rw [hd] at hf
    simp only [] at hf
    split_ifs at hf with hw
    exact hw.1

theorem dueFilter_not_recent {now w hrs l : Int} {t : TodoDict}
    (hf : dueFilter now w hrs t = true)
    (hl : parseIso ((t "last_reminded_at").getD "") = some l) :
    ¬ (now - l < hrs * 3600) := by
  unfold dueFilter at hf
  split at hf
  · simp at hf
  · cases hdue : parseIso ((t "due_at").getD "") with
    | none => rw [hdue] at hf; simp at hf
    | some due =>
      rw [hdue] at hf
      simp only [] at hf
      split_ifs at hf with hw
      rw [hl] at hf
      simp only [] at hf
      split_ifs at hf with hr
      exact hr

theorem mem_find_due_within_cons {rows : List Row} {r : Row} {now hrs : Int}
    (hmem : r ∈ rows) (hkeep : fetchKeep 0 r = true)
    (hfilter : dueFilter now (now + hrs * 3600) hrs (rowToDict r HEADERS) = true) :
    rowToDict r HEADERS ∈ (find_due_within (HEADERS :: rows) now hrs).2 := by
  rw [find_due_within_cons_HEADERS]
  exact List.mem_filter.mpr
    ⟨List.mem_map_of_mem _ (List.mem_filter.mpr ⟨hmem, hkeep⟩), hfilter⟩

/-- C4: a record with status `open`, empty `last_reminded_at`, and
`due_at` equal to `now + 1h` is included in `find_due_within(24)`;
immediately after `mark_reminded([id])` with a timestamp parsing to
`now`, a second `find_due_within(24)` call excludes that id — and in
general a record is excluded whenever its parseable `last_reminded_at`
satisfies `now - last_reminded_at < hours`. -/
theorem C4_reminder_dedup
    (rows : List Row) (r : Row) (i nowStr atStr : String) (now : Int)
    (hmem : r ∈ rows) (hid : r.getD 0 "" = i) (hne : i ≠ "")
    (hst : r.getD 4 "" = "open")
    (hdue : parseIso (r.getD 5 "") = some (now + 3600))
    (hlast : r.getD 9 "" = "")
    (hat : atStr ≠ "") (hpat : parseIso atStr = some now) :
    rowToDict r HEADERS ∈ (find_due_within (HEADERS :: rows) now 24).2 ∧
    (∀ t ∈ (find_due_within (mark_reminded (HEADERS :: rows) nowStr [i] atStr) now 24).2,
      t "id" ≠ some i) ∧
    (∀ (s : Sheet) (hrs l : Int) (t : TodoDict),
      t ∈ (find_due_within s now hrs).2 →
      parseIso ((t "last_reminded_at").getD "") = some l →
      ¬ (now - l < hrs * 3600)) := by
  refine ⟨?_, ?_, ?_⟩
  · apply mem_find_due_within_cons hmem (fetchKeep_of_id hid hne)
    apply dueFilter_true_of (by simp only [rowToDict_HEADERS_status, hst])
      (now + 3600) (by simpa using hdue) (by omega) (by omega)
    left
    rw [rowToDict_HEADERS_last_reminded_at, Option.getD_some, hlast]
    exact parseIso_empty
  · intro t ht hcontra
    rw [mark_reminded_cons_HEADERS rows nowStr atStr [i] (by simp) hat,
      find_due_within_cons_HEADERS] at ht
    obtain ⟨htm, hdf⟩ := List.mem_filter.mp ht
    obtain ⟨row, hrowmem, rfl⟩ := List.mem_map.mp htm
    have hrowid : row.getD 0 "" = i := by simpa using hcontra
    obtain ⟨orig, horig, heq⟩ := List.mem_map.mp (List.mem_filter.mp hrowmem).1
    by_cases hc : (decide (0 < orig.length) && [i].contains (orig.getD 0 "")) = true
    · rw [if_pos hc] at heq
      have h9 : row.getD 9 "" = atStr := by
        rw [← heq]; exact setCellInRow_getD_self orig 9 atStr
      have hlastparse :
          parseIso ((rowToDict row HEADERS "last_reminded_at").getD "") = some now := by
        rw [rowToDict_HEADERS_last_reminded_at, Option.getD_some, h9]
        exact hpat
      have := dueFilter_not_recent hdf hlastparse
      omega
    · rw [if_neg hc] at heq
      subst heq
      have hlen : 0 < orig.length := by
        cases orig with
        | nil => exact absurd hrowid.symm hne
        | cons a l => simp
      refine hc ?_
      rw [Bool.and_eq_true]
      refine ⟨by simpa using hlen, ?_⟩
      rw [hrowid]
      simp
  · intro s hrs l t ht hl hrec
    have ht' : t ∈ (fetch_all_todos s).2.filter (dueFilter now (now + hrs * 3600) hrs) := ht
    exact dueFilter_not_recent (List.mem_filter.mp ht').2 hl hrec

theorem C4_witness :
    ((["a", "t", "", "Medium", "open", "3600", "", "", "", ""] : Row)
        ∈ [["a", "t", "", "Medium", "open", "3600", "", "", "", ""]] ∧
      parseIso "3600" = some ((0 : Int) + 3600) ∧ parseIso "0" = some (0 : Int)) ∧
    (rowToDict ["a", "t", "", "Medium", "open", "3600", "", "", "", ""] HEADERS ∈
        (find_due_within
          (HEADERS :: [["a", "t", "", "Medium", "open", "3600", "", "", "", ""]]) 0 24).2 ∧
      (∀ t ∈ (find_due_within
          (mark_reminded (HEADERS :: [["a", "t", "", "Medium", "open", "3600", "", "", "", ""]])
            "99" ["a"] "0") 0 24).2,
        t "id" ≠ some "a") ∧
      (∀ (s : Sheet) (hrs l : Int) (t : TodoDict),
        t ∈ (find_due_within s 0 hrs).2 →
        parseIso ((t "last_reminded_at").getD "") = some l →
        ¬ ((0 : Int) - l < hrs * 3600))) :=
  ⟨⟨by decide, by decide, by decide⟩,
   C4_reminder_dedup [["a", "t", "", "Medium", "open", "3600", "", "", "", ""]]
     ["a", "t", "", "Medium", "open", "3600", "", "", "", ""] "a" "99" "0" 0
     (by decide) (by decide) (by decide) (by decide) (by decide) (by decide)
     (by decide) (by decide)⟩

/-- C5 (counterexample): an open record whose parseable `due_at` equals
`now + hours` exactly is nevertheless excluded from `find_due_within`
when its `last_reminded_at` was set within the window, so the claim's
first half is false without a dedup qualifier. -/
theorem C5_counterexample :
    (find_due_within [HEADERS, ["a", "t", "", "Medium", "open", "86400", "", "", "", "0"]]
        0 24).2 = [] ∧
    (["a", "t", "", "Medium", "open", "86400", "", "", "", "0"] : Row).getD 4 "" = "open" ∧
    parseIso "86400" = some ((0 : Int) + 24 * 3600) :=
  ⟨rfl, rfl, rfl⟩

/-- C5 (amended): in `find_due_within(hours)`, every open record whose
parseable `due_at` is exactly `now + hours` is included — inclusive
upper bound — provided it is not suppressed by the reminder dedup (its
`last_reminded_at` is unparseable/empty, or at least `hours` old); and
every record whose parseable `due_at` is strictly before `now` is
excluded. -/
theorem C5_boundary_amended
    (rows : List Row) (r : Row) (i : String) (now hrs : Int) (h0 : 0 ≤ hrs)
    (hmem : r ∈ rows) (hid : r.getD 0 "" = i) (hne : i ≠ "")
    (hst : r.getD 4 "" = "open")
    (hdue : parseIso (r.getD 5 "") = some (now + hrs * 3600))
    (hded : parseIso (r.getD 9 "") = none ∨
      ∃ l, parseIso (r.getD 9 "") = some l ∧ ¬ (now - l < hrs * 3600)) :
    rowToDict r HEADERS ∈ (find_due_within (HEADERS :: rows) now hrs).2 ∧
    (∀ (s : Sheet) (t : TodoDict) (d : Int),
      t ∈ (find_due_within s now hrs).2 →
      parseIso ((t "due_at").getD "") = some d → ¬ (d < now)) := by
  constructor
  · apply mem_find_due_within_cons hmem (fetchKeep_of_id hid hne)
    apply dueFilter_true_of (by simp only [rowToDict_HEADERS_status, hst])
      (now + hrs * 3600) (by simpa using hdue) (by omega) (le_refl _)
    rw [rowToDict_HEADERS_last_reminded_at, Option.getD_some]
    exact hded
  · intro s t d ht hd hlt
    have ht' : t ∈ (fetch_all_todos s).2.filter (dueFilter now (now + hrs * 3600) hrs) := ht
    have := dueFilter_now_le_due (List.mem_filter.mp ht').2 hd
    omega

theorem C5_witness :
    ((0 : Int) ≤ 24 ∧
      (["a", "t", "", "Medium", "open", "86400", "", "", "", ""] : Row)
        ∈ [["a", "t", "", "Medium", "open", "86400", "", "", "", ""]] ∧
      parseIso "86400" = some ((0 : Int) + 24 * 3600) ∧ parseIso "" = none) ∧
    (rowToDict ["a", "t", "", "Medium", "open", "86400", "", "", "", ""] HEADERS ∈
        (find_due_within
          (HEADERS :: [["a", "t", "", "Medium", "open", "86400", "", "", "", ""]]) 0 24).2 ∧
      (∀ (s : Sheet) (t : TodoDict) (d : Int),
        t ∈ (find_due_within s 0 24).2 →
        parseIso ((t "due_at").getD "") = some d → ¬ (d < (0 : Int)))) :=
  ⟨⟨by decide, by decide, by decide, by decide⟩,
   C5_boundary_amended [["a", "t", "", "Medium", "open", "86400", "", "", "", ""]]
     ["a", "t", "", "Medium", "open", "86400", "", "", "", ""] "a" 0 24
     (by decide) (by decide) (by decide) (by decide) (by decide) (by decide)
     (Or.inl (by decide))⟩

/-! ## Enumerated-value invariant machinery -/

/-- A data row whose `priority` and `status` cells (canonical layout)
hold enumerated values. -/
def validRow (row : Row) : Prop :=
  row.getD 3 "" ∈ VALID_PRIORITIES ∧ row.getD 4 "" ∈ VALID_STATUSES

/-- A store whose header row is canonical and whose data rows are all
valid. -/
def validStore (s : Sheet) : Prop :=
  rowValues1 s = HEADERS ∧ ∀ r ∈ s.tail, validRow r

/-- One invocation of a mutating record-store operation, with the
nondeterministic inputs (`uuid4`, `_now_iso`) and the user arguments. -/
inductive StoreOp
  | create (newId nowStr title description priority due_at : String)
  | update (nowStr todo_id title description priority due_at : String)
  | toggle (nowStr todo_id : String)

/-- Apply one store operation to the sheet. -/
def applyOp (s : Sheet) : StoreOp → Sheet
  | .create a b c d e f => create_todo s a b c d e f
  | .update a b c d e f => update_todo s a b c d e f
  | .toggle a b => (toggle_status s a b).1

/-- Apply a sequence of store operations, oldest first. -/
def applyOps (s : Sheet) (ops : List StoreOp) : Sheet :=
  ops.foldl applyOp s

theorem ne_nil_of_canonical {s : Sheet} (h : rowValues1 s = HEADERS) : s ≠ [] := by
  intro hs
  rw [hs] at h
  exact absurd h (by decide)

theorem mem_of_contains {l : List String} {x : String} (h : l.contains x = true) : x ∈ l := by
  simpa using h

theorem coerced_priority_valid (p : String) :
    (if VALID_PRIORITIES.contains p then p else "Medium") ∈ VALID_PRIORITIES := by
  by_cases hp : VALID_PRIORITIES.contains p = true
  · rw [if_pos hp]
    exact mem_of_contains hp
  · rw [if_neg hp]
    decide

theorem getD_append_left {l l' : Row} {n : Nat} (h : n < l.length) :
    (l ++ l').getD n "" = l.getD n "" := by
  simp [List.getD_eq_getElem?_getD, List.getElem?_append_left h]

theorem headD_set_succ (s : Sheet) (j : Nat) (v : Row) :
    (s.set (j + 1) v).headD [] = s.headD [] := by
  cases s <;> rfl

theorem tail_set_succ (s : Sheet) (j : Nat) (v : Row) :
    (s.set (j + 1) v).tail = s.tail.set j v := by
  cases s <;> rfl

theorem getD_succ_tail {s : Sheet} (j : Nat) : s.getD (j + 1) [] = s.tail.getD j [] := by
  cases s with
  | nil => simp
  | cons h t => rfl

theorem getD_mem_of_lt {l : List Row} {j : Nat} (h : j < l.length) : l.getD j [] ∈ l := by
  rw [List.getD_eq_getElem?_getD, List.getElem?_eq_getElem h]
  exact List.getElem_mem h

theorem dictToRow_length (d : TodoDict) : (dictToRow d).length = 10 := rfl

theorem rowValues1_set_succ {s : Sheet} (j : Nat) (v : Row) :
    rowValues1 (s.set (j + 1) v) = rowValues1 s := by
  unfold rowValues1
  rw [headD_set_succ]

/-- Shape of `create_todo` on a canonical-header sheet. -/
theorem create_todo_canonical {s : Sheet} (hc : rowValues1 s = HEADERS)
    (newId nowStr title description priority due_at : String) :
    create_todo s newId nowStr title description priority due_at =
      s ++ [dictToRow (createData newId nowStr title description priority due_at)] := by
  unfold create_todo
  rw [ensureHeaders_of_canonical hc]

/-- Shape of `update_todo` on a canonical-header sheet. -/
theorem update_todo_canonical {s : Sheet} (hc : rowValues1 s = HEADERS)
    (nowStr todo_id title description priority due_at : String) :
    update_todo s nowStr todo_id title description priority due_at =
      match s.tail.findIdx? (idMatch 0 todo_id) with
      | none => s
      | some j =>
        setRow s (j + 2)
          (dictToRow (updateData (rowToDict (s.tail.getD j []) HEADERS)
            nowStr todo_id title description priority due_at)) := by
  simp only [update_todo, ensureHeaders_of_canonical hc, hc, headerIdx_HEADERS_id,
    Option.getD_some]

/-- Shape of `toggle_status` on a canonical-header sheet. -/
theorem toggle_status_canonical {s : Sheet} (hc : rowValues1 s = HEADERS)
    (nowStr todo_id : String) :
    toggle_status s nowStr todo_id =
      match s.tail.findIdx? (idMatch 0 todo_id) with
      | none => (s, none)
      | some j =>
        ((setRow s (j + 2) (dictToRow (dictInsert (dictInsert (dictInsert
            (rowToDict (s.tail.getD j []) HEADERS) "status"
              (if rowToDict (s.tail.getD j []) HEADERS "status" ≠ some "done"
               then "done" else "open"))
            "done_at" (if (if rowToDict (s.tail.getD j []) HEADERS "status" ≠ some "done"
               then "done" else "open") = "done" then nowStr else ""))
            "updated_at" nowStr))),
         some (if rowToDict (s.tail.getD j []) HEADERS "status" ≠ some "done"
               then "done" else "open")) := by
  simp only [toggle_status, ensureHeaders_of_canonical hc, hc, headerIdx_HEADERS_id,
    Option.getD_some]

theorem create_todo_preserves_validStore {s : Sheet} (hv : validStore s)
    (newId nowStr title description priority due_at : String) :
    validStore (create_todo s newId nowStr title description priority due_at) := by
  obtain ⟨hc, hrows⟩ := hv
  rw [create_todo_canonical hc]
  have hs := ne_nil_of_canonical hc
  cases s with
  | nil => exact absurd rfl hs
  | cons hrow t =>
    constructor
    · exact hc
    · intro r hr
      rw [List.cons_append, List.tail_cons] at hr
      rcases List.mem_append.mp hr with h | h
      · exact hrows r h
      · have hre : r = dictToRow (createData newId nowStr title description priority due_at) := by
          simpa using h
        subst hre
        rw [dictToRow_createData]
        constructor
        · simp only [List.getD_cons_succ, List.getD_cons_zero]
          exact coerced_priority_valid priority
        · simp only [List.getD_cons_succ, List.getD_cons_zero]
          decide

theorem update_todo_preserves_validStore {s : Sheet} (hv : validStore s)
    (nowStr todo_id title description priority due_at : String) :
    validStore (update_todo s nowStr todo_id title description priority due_at) := by
  obtain ⟨hc, hrows⟩ := hv
  rw [update_todo_canonical hc]
  cases hfind : s.tail.findIdx? (idMatch 0 todo_id) with
  | none => exact ⟨hc, hrows⟩
  | some j =>
    simp only []
    have hj : j < s.tail.length := findIdx?_lt_length hfind
    have hvold := hrows _ (getD_mem_of_lt hj)
    unfold setRow
    rw [show j + 2 - 1 = j + 1 from by omega]
    refine ⟨by rw [rowValues1_set_succ]; exact hc, ?_⟩
    intro r hr
    rw [tail_set_succ] at hr
    rcases List.mem_or_eq_of_mem_set hr with h | h
    · exact hrows r h
    · subst h
      unfold overwriteRowCells
      rw [dictToRow_updateData]
      constructor
      · simp only [List.cons_append, List.getD_cons_succ, List.getD_cons_zero]
        exact coerced_priority_valid priority
      · simp only [List.cons_append, List.getD_cons_succ, List.getD_cons_zero,
          rowToDict_HEADERS_status, Option.getD_some, getD_succ_tail]
        exact hvold.2

theorem toggle_status_preserves_validStore {s : Sheet} (hv : validStore s)
    (nowStr todo_id : String) :
    validStore (toggle_status s nowStr todo_id).1 := by
  obtain ⟨hc, hrows⟩ := hv
  rw [toggle_status_canonical hc]
  cases hfind : s.tail.findIdx? (idMatch 0 todo_id) with
  | none => exact ⟨hc, hrows⟩
  | some j =>
    simp only []
    have hj : j < s.tail.length := findIdx?_lt_length hfind
    have hvold := hrows _ (getD_mem_of_lt hj)
    unfold setRow
    rw [show j + 2 - 1 = j + 1 from by omega]
    refine ⟨by rw [rowValues1_set_succ]; exact hc, ?_⟩
    intro r hr
    rw [tail_set_succ] at hr
    rcases List.mem_or_eq_of_mem_set hr with h | h
    · exact hrows r h
    · subst h
      unfold overwriteRowCells
      rw [dictToRow_toggleData]
      constructor
      · simp only [List.cons_append, List.getD_cons_succ, List.getD_cons_zero]
        exact hvold.1
      · simp only [List.cons_append, List.getD_cons_succ, List.getD_cons_zero]
        split <;> decide

theorem applyOp_preserves_validStore {s : Sheet} (hv : validStore s) (op : StoreOp) :
    validStore (applyOp s op) := by
  cases op with
  | create a b c d e f => exact create_todo_preserves_validStore hv a b c d e f
  | update a b c d e f => exact update_todo_preserves_validStore hv a b c d e f
  | toggle a b => exact toggle_status_preserves_validStore hv a b

theorem applyOps_preserves_validStore {s : Sheet} (hv : validStore s) (ops : List StoreOp) :
    validStore (applyOps s ops) := by
  induction ops generalizing s with
  | nil => exact hv
  | cons op ops ih => exact ih (applyOp_preserves_validStore hv op)

/-- C6: starting from any store with canonical headers and enumerated
priority/status cells (e.g. an empty store), every record written
through any sequence of create / update / toggle_status operations has
priority in {High, Medium, Low} and status in {open, done}; `create`
coerces an invalid priority input to the default "Medium" and always
writes status "open". -/
theorem C6_enum_invariant (s : Sheet) (ops : List StoreOp) (hs : validStore s)
    (newId nowStr title description priority due_at : String) :
    validStore (applyOps s ops) ∧
    create_todo s newId nowStr title description priority due_at
      = s ++ [[newId, title, description,
               if VALID_PRIORITIES.contains priority then priority else "Medium",
               "open", due_at, nowStr, nowStr, "", ""]] ∧
    (if VALID_PRIORITIES.contains priority then priority else "Medium") ∈ VALID_PRIORITIES ∧
    (VALID_PRIORITIES.contains priority = false →
      (if VALID_PRIORITIES.contains priority then priority else "Medium") = "Medium") := by
  refine ⟨applyOps_preserves_validStore hs ops, ?_, coerced_priority_valid priority, ?_⟩
  · rw [create_todo_canonical hs.1, dictToRow_createData]
  · intro hp
    rw [hp]
    rfl

theorem C6_witness :
    (rowValues1 [HEADERS] = HEADERS ∧ ∀ r ∈ ([HEADERS] : Sheet).tail, validRow r) ∧
    (validStore (applyOps [HEADERS]
        [StoreOp.create "a" "1" "T" "" "Urgent" "", StoreOp.toggle "2" "a",
         StoreOp.update "3" "a" "T2" "" "Bogus" ""]) ∧
      create_todo [HEADERS] "a" "1" "T" "" "Urgent" ""
        = [HEADERS] ++ [["a", "T", "", "Medium", "open", "", "1", "1", "", ""]] ∧
      ("Medium" : String) ∈ VALID_PRIORITIES ∧
      (VALID_PRIORITIES.contains "Urgent" = false → ("Medium" : String) = "Medium")) :=
  ⟨⟨rfl, by simp⟩,
   C6_enum_invariant [HEADERS]
     [StoreOp.create "a" "1" "T" "" "Urgent" "", StoreOp.toggle "2" "a",
      StoreOp.update "3" "a" "T2" "" "Bogus" ""]
     ⟨rfl, by simp⟩ "a" "1" "T" "" "Urgent" ""⟩

/-! ## Toggle lemmas -/

theorem getD_set_self {l : List Row} {j : Nat} (h : j < l.length) (v : Row) :
    (l.set j v).getD j [] = v := by
  rw [List.getD_eq_getElem?_getD, List.getElem?_set_self h]
  rfl

theorem getD_set_ne {l : List Row} {j k : Nat} (h : k ≠ j) (v : Row) :
    (l.set j v).getD k [] = l.getD k [] := by
  rw [List.getD_eq_getElem?_getD, List.getD_eq_getElem?_getD,
    List.getElem?_set_ne (by omega)]

/-- The status value `toggle_status` writes, as a function of the old
row (canonical headers): `"done" if old.get("status") != "done" else
"open"`. -/
def toggledStatus (row : Row) : String :=
  if rowToDict row HEADERS "status" ≠ some "done" then "done" else "open"

/-- The full row `toggle_status` writes back over the old row
(canonical headers). -/
def toggledRow (row : Row) (nowStr : String) : Row :=
  [row.getD 0 "", row.getD 1 "", row.getD 2 "", row.getD 3 "", toggledStatus row,
   row.getD 5 "", row.getD 6 "", nowStr,
   if toggledStatus row = "done" then nowStr else "", row.getD 9 ""]
    ++ row.drop 10

theorem toggle_status_found {s : Sheet} {todo_id : String} {j : Nat}
    (hc : rowValues1 s = HEADERS)
    (hfind : s.tail.findIdx? (idMatch 0 todo_id) = some j) (nowStr : String) :
    (toggle_status s nowStr todo_id).1
      = s.set (j + 1) (toggledRow (s.tail.getD j []) nowStr) := by
  have h := toggle_status_canonical hc nowStr todo_id
  rw [hfind] at h
  simp only [] at h
  rw [h]
  unfold setRow
  rw [show j + 2 - 1 = j + 1 from by omega]
  refine congrArg (fun v => s.set (j + 1) v) ?_
  unfold overwriteRowCells
  rw [dictToRow_toggleData, getD_succ_tail]
  rfl

theorem toggledRow_getD0 (row : Row) (n : String) :
    (toggledRow row n).getD 0 "" = row.getD 0 "" := rfl

theorem toggledRow_getD4 (row : Row) (n : String) :
    (toggledRow row n).getD 4 "" = toggledStatus row := rfl

theorem idMatch_toggledRow {row : Row} {todo_id : String}
    (h : idMatch 0 todo_id row = true) (n : String) :
    idMatch 0 todo_id (toggledRow row n) = true := by
  unfold idMatch at h ⊢
  rw [Bool.and_eq_true] at h ⊢
  obtain ⟨h1, h2⟩ := h
  refine ⟨by simp [toggledRow], ?_⟩
  rw [toggledRow_getD0]
  exact h2

/-- C7 (counterexample): on a row whose status cell is not one of the
enumerated values ("weird"), two successive toggles leave status "open",
not the original value, so the claim is false for arbitrary store
contents. -/
theorem C7_counterexample :
    ((toggle_status (toggle_status
          [HEADERS, ["a", "t", "", "Medium", "weird", "", "", "", "", ""]]
        "n1" "a").1 "n2" "a").1.tail.headD []).getD 4 "" = "open" ∧
    (["a", "t", "", "Medium", "weird", "", "", "", "", ""] : Row).getD 4 "" = "weird" ∧
    ("open" : String) ≠ "weird" :=
  ⟨rfl, rfl, by decide⟩

/-- C7 (amended): for every record whose id exists in the store
(canonical headers, first match at data index `j`) and whose status
field is one of the enumerated values, calling `toggle_status` twice in
succession returns the record's status field to its original value. -/
theorem C7_toggle_involutive_amended
    (s : Sheet) (n1 n2 todo_id : String) (j : Nat)
    (hc : rowValues1 s = HEADERS)
    (hfind : s.tail.findIdx? (idMatch 0 todo_id) = some j)
    (hvs : (s.tail.getD j []).getD 4 "" ∈ VALID_STATUSES) :
    ((toggle_status (toggle_status s n1 todo_id).1 n2 todo_id).1.tail.getD j []).getD 4 ""
      = (s.tail.getD j []).getD 4 "" := by
  have hj : j < s.tail.length := findIdx?_lt_length hfind
  have hmatch : idMatch 0 todo_id (s.tail.getD j []) = true := findIdx?_getD hfind []
  have h1 := toggle_status_found hc hfind n1
  have hc1 : rowValues1 (toggle_status s n1 todo_id).1 = HEADERS := by
    rw [h1, rowValues1_set_succ]
    exact hc
  have htail1 : (toggle_status s n1 todo_id).1.tail
      = s.tail.set j (toggledRow (s.tail.getD j []) n1) := by
    rw [h1, tail_set_succ]
  have hfind1 : (toggle_status s n1 todo_id).1.tail.findIdx? (idMatch 0 todo_id) = some j := by
    rw [htail1]
    exact findIdx?_set_self hfind (idMatch_toggledRow hmatch n1)
  have hget1 : (toggle_status s n1 todo_id).1.tail.getD j []
      = toggledRow (s.tail.getD j []) n1 := by
    rw [htail1]
    exact getD_set_self hj _
  have h2 := toggle_status_found hc1 hfind1 n2
  rw [h2, tail_set_succ]
  have hj1 : j < (toggle_status s n1 todo_id).1.tail.length := by
    rw [htail1, List.length_set]
    exact hj
  rw [getD_set_self hj1, hget1, toggledRow_getD4]
  have hcase : (s.tail.getD j []).getD 4 "" = "open" ∨ (s.tail.getD j []).getD 4 "" = "done" := by
    simpa [VALID_STATUSES] using hvs
  rcases hcase with h | h
  · have hts : toggledStatus (s.tail.getD j []) = "done" := by
      unfold toggledStatus
      rw [rowToDict_HEADERS_status, h]
      rfl
    unfold toggledStatus
    rw [rowToDict_HEADERS_status, toggledRow_getD4, hts, h]
    rfl
  · have hts : toggledStatus (s.tail.getD j []) = "open" := by
      unfold toggledStatus
      rw [rowToDict_HEADERS_status, h]
      rfl
    unfold toggledStatus
    rw [rowToDict_HEADERS_status, toggledRow_getD4, hts, h]
    rfl

theorem C7_witness :
    (rowValues1 [HEADERS, ["a", "t", "", "Medium", "open", "", "", "", "", ""]] = HEADERS ∧
      ([HEADERS, ["a", "t", "", "Medium", "open", "", "", "", "", ""]] : Sheet).tail.findIdx?
        (idMatch 0 "a") = some 0 ∧
      ((([HEADERS, ["a", "t", "", "Medium", "open", "", "", "", "", ""]] : Sheet).tail.getD 0
        []).getD 4 "") ∈ VALID_STATUSES) ∧
    ((toggle_status (toggle_status
          [HEADERS, ["a", "t", "", "Medium", "open", "", "", "", "", ""]]
        "7" "a").1 "8" "a").1.tail.getD 0 []).getD 4 ""
      = (([HEADERS, ["a", "t", "", "Medium", "open", "", "", "", "", ""]] : Sheet).tail.getD 0
        []).getD 4 "" :=
  ⟨⟨by decide, by decide, by decide⟩,
   C7_toggle_involutive_amended
     [HEADERS, ["a", "t", "", "Medium", "open", "", "", "", "", ""]] "7" "8" "a" 0
     (by decide) (by decide) (by decide)⟩

/-- Shape of `update_todo` on a canonical-header sheet when the id is
found at data index `j`. -/
theorem update_todo_found {s : Sheet} {todo_id : String} {j : Nat}
    (hc : rowValues1 s = HEADERS)
    (hfind : s.tail.findIdx? (idMatch 0 todo_id) = some j)
    (nowStr title description priority due_at : String) :
    update_todo s nowStr todo_id title description priority due_at
      = s.set (j + 1)
          ([todo_id, title, description,
            if VALID_PRIORITIES.contains priority then priority else "Medium",
            (s.tail.getD j []).getD 4 "", due_at, (s.tail.getD j []).getD 6 "", nowStr,
            (s.tail.getD j []).getD 8 "", (s.tail.getD j []).getD 9 ""]
            ++ (s.tail.getD j []).drop 10) := by
  rw [update_todo_canonical hc, hfind]
  simp only []
  unfold setRow
  rw [show j + 2 - 1 = j + 1 from by omega]
  refine congrArg (fun v => s.set (j + 1) v) ?_
  unfold overwriteRowCells
  rw [dictToRow_updateData, getD_succ_tail]
  simp only [rowToDict_HEADERS_status, rowToDict_HEADERS_created_at,
    rowToDict_HEADERS_done_at, rowToDict_HEADERS_last_reminded_at, Option.getD_some]
  rfl

/-- C8 (counterexample): if the sheet's header row is not canonical,
`update_todo` with an id that matches no record is not a no-op — the
`_ensure_headers` call first migrates the legacy sheet, changing the
store. -/
theorem C8_counterexample :
    update_todo [LEGACY_HEADERS] "9" "missing" "T" "" "Medium" "" ≠ [LEGACY_HEADERS] := by
  decide

/-- C8 (amended): on a sheet whose header row is already canonical, for
every existing record `update_todo` preserves the record's status,
created_at, done_at, and last_reminded_at cells from the existing row,
sets updated_at to now, writes the new title/description/due_at, coerces
an invalid priority to Medium, and overwrites only that record's row in
place (all other rows and the header row are unchanged); when no record
has the given id, the store is unchanged. -/
theorem C8_update_frame_amended
    (s : Sheet) (nowStr todo_id title description priority due_at : String) (j : Nat)
    (hc : rowValues1 s = HEADERS) :
    (s.tail.findIdx? (idMatch 0 todo_id) = none →
      update_todo s nowStr todo_id title description priority due_at = s) ∧
    (s.tail.findIdx? (idMatch 0 todo_id) = some j →
      ((update_todo s nowStr todo_id title description priority due_at).tail.getD j
          []).getD 4 "" = (s.tail.getD j []).getD 4 "" ∧
      ((update_todo s nowStr todo_id title description priority due_at).tail.getD j
          []).getD 6 "" = (s.tail.getD j []).getD 6 "" ∧
      ((update_todo s nowStr todo_id title description priority due_at).tail.getD j
          []).getD 8 "" = (s.tail.getD j []).getD 8 "" ∧
      ((update_todo s nowStr todo_id title description priority due_at).tail.getD j
          []).getD 9 "" = (s.tail.getD j []).getD 9 "" ∧
      ((update_todo s nowStr todo_id title description priority due_at).tail.getD j
          []).getD 7 "" = nowStr ∧
      ((update_todo s nowStr todo_id title description priority due_at).tail.getD j
          []).getD 1 "" = title ∧
      ((update_todo s nowStr todo_id title description priority due_at).tail.getD j
          []).getD 2 "" = description ∧
      ((update_todo s nowStr todo_id title description priority due_at).tail.getD j
          []).getD 5 "" = due_at ∧
      (VALID_PRIORITIES.contains priority = false →
        ((update_todo s nowStr todo_id title description priority due_at).tail.getD j
            []).getD 3 "" = "Medium") ∧
      (∀ k, k ≠ j →
        (update_todo s nowStr todo_id title description priority due_at).tail.getD k []
          = s.tail.getD k []) ∧
      (update_todo s nowStr todo_id title description priority due_at).headD []
        = s.headD []) := by
  constructor
  · intro hfind
    rw [update_todo_canonical hc, hfind]
  · intro hfind
    have hj : j < s.tail.length := findIdx?_lt_length hfind
    rw [update_todo_found hc hfind, tail_set_succ, getD_set_self hj]
    simp only [List.cons_append, List.getD_cons_succ, List.getD_cons_zero]
    refine ⟨True.intro, True.intro, True.intro, True.intro, True.intro, True.intro,
      True.intro, True.intro, ?_, ?_, ?_⟩
    · intro hp
      rw [hp]
      rfl
    · intro k hk
      exact getD_set_ne hk _
    · exact headD_set_succ s j _

theorem C8_witness :
    rowValues1 [HEADERS, ["a", "t", "d", "High", "done", "5", "c", "u", "dn", "lr"]]
      = HEADERS ∧
    ((([HEADERS, ["a", "t", "d", "High", "done", "5", "c", "u", "dn", "lr"]] :
          Sheet).tail.findIdx? (idMatch 0 "a") = none →
        update_todo [HEADERS, ["a", "t", "d", "High", "done", "5", "c", "u", "dn", "lr"]]
            "NOW" "a" "T" "D" "Bogus" "9"
          = [HEADERS, ["a", "t", "d", "High", "done", "5", "c", "u", "dn", "lr"]]) ∧
      (([HEADERS, ["a", "t", "d", "High", "done", "5", "c", "u", "dn", "lr"]] :
          Sheet).tail.findIdx? (idMatch 0 "a") = some 0 →
        ((update_todo [HEADERS, ["a", "t", "d", "High", "done", "5", "c", "u", "dn", "lr"]]
            "NOW" "a" "T" "D" "Bogus" "9").tail.getD 0 []).getD 4 "" = "done" ∧
        ((update_todo [HEADERS, ["a", "t", "d", "High", "done", "5", "c", "u", "dn", "lr"]]
            "NOW" "a" "T" "D" "Bogus" "9").tail.getD 0 []).getD 6 "" = "c" ∧
        ((update_todo [HEADERS, ["a", "t", "d", "High", "done", "5", "c", "u", "dn", "lr"]]
            "NOW" "a" "T" "D" "Bogus" "9").tail.getD 0 []).getD 8 "" = "dn" ∧
        ((update_todo [HEADERS, ["a", "t", "d", "High", "done", "5", "c", "u", "dn", "lr"]]
            "NOW" "a" "T" "D" "Bogus" "9").tail.getD 0 []).getD 9 "" = "lr" ∧
        ((update_todo [HEADERS, ["a", "t", "d", "High", "done", "5", "c", "u", "dn", "lr"]]
            "NOW" "a" "T" "D" "Bogus" "9").tail.getD 0 []).getD 7 "" = "NOW" ∧
        ((update_todo [HEADERS, ["a", "t", "d", "High", "done", "5", "c", "u", "dn", "lr"]]
            "NOW" "a" "T" "D" "Bogus" "9").tail.getD 0 []).getD 1 "" = "T" ∧
        ((update_todo [HEADERS, ["a", "t", "d", "High", "done", "5", "c", "u", "dn", "lr"]]
            "NOW" "a" "T" "D" "Bogus" "9").tail.getD 0 []).getD 2 "" = "D" ∧
        ((update_todo [HEADERS, ["a", "t", "d", "High", "done", "5", "c", "u", "dn", "lr"]]
            "NOW" "a" "T" "D" "Bogus" "9").tail.getD 0 []).getD 5 "" = "9" ∧
        (VALID_PRIORITIES.contains "Bogus" = false →
          ((update_todo [HEADERS, ["a", "t", "d", "High", "done", "5", "c", "u", "dn", "lr"]]
              "NOW" "a" "T" "D" "Bogus" "9").tail.getD 0 []).getD 3 "" = "Medium") ∧
        (∀ k, k ≠ 0 →
          (update_todo [HEADERS, ["a", "t", "d", "High", "done", "5", "c", "u", "dn", "lr"]]
              "NOW" "a" "T" "D" "Bogus" "9").tail.getD k []
            = ([HEADERS, ["a", "t", "d", "High", "done", "5", "c", "u", "dn", "lr"]] :
                Sheet).tail.getD k []) ∧
        (update_todo [HEADERS, ["a", "t", "d", "High", "done", "5", "c", "u", "dn", "lr"]]
            "NOW" "a" "T" "D" "Bogus" "9").headD []
          = ([HEADERS, ["a", "t", "d", "High", "done", "5", "c", "u", "dn", "lr"]] :
              Sheet).headD [])) :=
  ⟨by decide,
   C8_update_frame_amended [HEADERS, ["a", "t", "d", "High", "done", "5", "c", "u", "dn", "lr"]]
     "NOW" "a" "T" "D" "Bogus" "9" 0 (by decide)⟩

/-! ## Fetch / reminder-marking lemmas and remaining claims -/

theorem fetch_todo_by_id_canonical {s : Sheet} (hc : rowValues1 s = HEADERS)
    (todo_id : String) :
    (fetch_todo_by_id s todo_id).2
      = (s.tail.find? (fun row => decide (0 < row.length) && (row.getD 0 "" == todo_id))).map
          (fun row => rowToDict row HEADERS) := by
  simp only [fetch_todo_by_id, ensureHeaders_of_canonical hc, hc, headerIdx_HEADERS_id,
    Option.getD_some]

/-- C9: for every valid record created (fresh nonempty id, non-empty
title, valid priority) on a canonical-header sheet, `fetch_todo_by_id`
applied to the id generated by `create_todo` returns a record whose
title, description, priority and due_at equal the values passed to
create and whose status is `"open"`. -/
theorem C9_create_fetch_roundtrip
    (s : Sheet) (newId nowStr title description priority due_at : String)
    (hc : rowValues1 s = HEADERS)
    (hfresh : ∀ r ∈ s.tail, ¬ (r.getD 0 "" = newId))
    (_hnid : newId ≠ "") (_htitle : title ≠ "")
    (hp : VALID_PRIORITIES.contains priority = true) :
    ∃ t, (fetch_todo_by_id (create_todo s newId nowStr title description priority due_at)
            newId).2 = some t ∧
      t "title" = some title ∧ t "description" = some description ∧
      t "priority" = some priority ∧ t "due_at" = some due_at ∧ t "status" = some "open" := by
  rw [create_todo_canonical hc]
  have hs := ne_nil_of_canonical hc
  have hc2 : rowValues1 (s ++ [dictToRow
      (createData newId nowStr title description priority due_at)]) = HEADERS := by
    cases s with
    | nil => exact absurd rfl hs
    | cons hrow t => exact hc
  rw [fetch_todo_by_id_canonical hc2]
  have htl : (s ++ [dictToRow
      (createData newId nowStr title description priority due_at)]).tail
      = s.tail ++ [dictToRow (createData newId nowStr title description priority due_at)] := by
    cases s with
    | nil => exact absurd rfl hs
    | cons hrow t => rfl
  rw [htl, find?_append_of_none, dictToRow_createData]
  · refine ⟨rowToDict [newId, title, description,
        if VALID_PRIORITIES.contains priority then priority else "Medium",
        "open", due_at, nowStr, nowStr, "", ""] HEADERS, ?_, ?_, ?_, ?_, ?_, ?_⟩
    · rw [List.find?_cons_of_pos _ (by simp)]
      rfl
    · simp
    · simp
    · simp only [rowToDict_HEADERS_priority, List.getD_cons_succ, List.getD_cons_zero]
      rw [hp]
      rfl
    · simp
    · simp
  · intro x hx
    have hxid := hfresh x hx
    rw [List.getD_eq_getElem?_getD] at hxid
    simp [hxid]

theorem C9_witness :
    (rowValues1 [HEADERS] = HEADERS ∧
      (∀ r ∈ ([HEADERS] : Sheet).tail, ¬ (r.getD 0 "" = "uuid-7")) ∧
      ("uuid-7" : String) ≠ "" ∧ ("Buy milk" : String) ≠ "" ∧
      VALID_PRIORITIES.contains "High" = true) ∧
    (∃ t, (fetch_todo_by_id (create_todo [HEADERS] "uuid-7" "123" "Buy milk" "desc" "High" "42")
            "uuid-7").2 = some t ∧
      t "title" = some "Buy milk" ∧ t "description" = some "desc" ∧
      t "priority" = some "High" ∧ t "due_at" = some "42" ∧ t "status" = some "open") :=
  ⟨⟨by decide, by simp, by decide, by decide, by decide⟩,
   C9_create_fetch_roundtrip [HEADERS] "uuid-7" "123" "Buy milk" "desc" "High" "42"
     (by decide) (by simp) (by decide) (by decide) (by decide)⟩

theorem getD_map_of_lt {f : Row → Row} {l : List Row} {j : Nat} (h : j < l.length) :
    (l.map f).getD j [] = f (l.getD j []) := by
  rw [List.getD_eq_getElem?_getD, List.getD_eq_getElem?_getD, List.getElem?_map,
    List.getElem?_eq_getElem h]
  rfl

/-- C10: if the id list passed to `mark_reminded` contains the empty
string, `mark_reminded` sets `last_reminded_at` on every sheet row that
has a blank id cell — rows that `fetch_all_todos` filters out as
invisible — because row membership is tested on the raw id cell with no
blank-id guard. -/
theorem C10_mark_reminded_blank_ids
    (rows : List Row) (nowStr at_ : String) (j : Nat)
    (hat : at_ ≠ "") (hj : j < rows.length)
    (hlen : 0 < (rows.getD j []).length) (hblank : (rows.getD j []).getD 0 "" = "") :
    ((mark_reminded (HEADERS :: rows) nowStr [""] at_).tail.getD j []).getD 9 "" = at_ ∧
    (∀ row ∈ rows, row.getD 0 "" = "" → fetchKeep 0 row = false) ∧
    (fetch_all_todos (HEADERS :: rows)).2
      = (rows.filter (fetchKeep 0)).map (fun row => rowToDict row HEADERS) := by
  refine ⟨?_, ?_, ?_⟩
  · rw [mark_reminded_cons_HEADERS rows nowStr at_ [""] (by simp) hat]
    rw [List.tail_cons, getD_map_of_lt hj]
    rw [if_pos]
    · exact setCellInRow_getD_self _ 9 at_
    · rw [Bool.and_eq_true]
      refine ⟨by simpa using hlen, ?_⟩
      rw [hblank]
      rfl
  · intro row _ hrow
    unfold fetchKeep
    rw [hrow]
    simp
  · rw [fetch_all_cons_HEADERS]

theorem C10_witness :
    (("AT" : String) ≠ "" ∧ (0 : Nat) < ([["", "t", "", "Medium", "open", "", "", "", "", ""],
        ["x", "t2", "", "Low", "open", "", "", "", "", ""]] : List Row).length ∧
      0 < (([["", "t", "", "Medium", "open", "", "", "", "", ""],
        ["x", "t2", "", "Low", "open", "", "", "", "", ""]] : List Row).getD 0 []).length ∧
      (([["", "t", "", "Medium", "open", "", "", "", "", ""],
        ["x", "t2", "", "Low", "open", "", "", "", "", ""]] : List Row).getD 0 []).getD 0 ""
        = "") ∧
    (((mark_reminded (HEADERS :: [["", "t", "", "Medium", "open", "", "", "", "", ""],
          ["x", "t2", "", "Low", "open", "", "", "", "", ""]]) "N" [""] "AT").tail.getD 0
        []).getD 9 "" = "AT" ∧
      (∀ row ∈ ([["", "t", "", "Medium", "open", "", "", "", "", ""],
          ["x", "t2", "", "Low", "open", "", "", "", "", ""]] : List Row),
        row.getD 0 "" = "" → fetchKeep 0 row = false) ∧
      (fetch_all_todos (HEADERS :: [["", "t", "", "Medium", "open", "", "", "", "", ""],
          ["x", "t2", "", "Low", "open", "", "", "", "", ""]])).2
        = (([["", "t", "", "Medium", "open", "", "", "", "", ""],
            ["x", "t2", "", "Low", "open", "", "", "", "", ""]] : List Row).filter
              (fetchKeep 0)).map (fun row => rowToDict row HEADERS)) :=
  ⟨⟨by decide, by decide, by decide, by decide⟩,
   C10_mark_reminded_blank_ids
     [["", "t", "", "Medium", "open", "", "", "", "", ""],
      ["x", "t2", "", "Low", "open", "", "", "", "", ""]] "N" "AT" 0
     (by decide) (by decide) (by decide) (by decide)⟩
